import Mathlib

/-!
Verification of the Backbone.js color-control widget
(`src/models/control-color.js` and `src/views/control-color.js`).

The model `ControlColor` stores an `options` list and a `checked` list of
string identifiers.  A `change:checked` handler (`updateChecked`) reconciles
the special sentinel identifier "all": freshly selecting "all" discards the
other identifiers, while selecting others when "all" was already checked
drops "all".  The view renders one checkbox per option and writes the set of
checked values back into the model on every change event.

Backbone specifics embedded here, from the library semantics the source
relies on:
  * `model.set(attr, v)` fires `change:attr` exactly when the new value is
    not deep-equal (`underscore.isEqual`) to the stored one; for flat arrays
    of strings deep equality is list equality (same elements, same order),
    which we model with `List String` equality.
  * handlers run synchronously in registration order; `this.previous(attr)`
    inside a handler is the value before the external `set` call (the inner
    re-entrant `set` does not refresh it, because `_changing` is still true).
  * `set(..., silent: true)` stores the value and fires no event at all.
  * the Backbone constructor merges `defaults` into the attributes by
    reference and only then calls `initialize`, so the handler registration
    in `initialize` does not apply to the construction-time attributes, and
    `attrs.options.push('all')` mutates the very array object shared with
    the caller (or with the prototype-wide `defaults.options` array when the
    caller supplied none).
-/

/-- `underscore.without(list, value)`: the list with every occurrence of
`value` removed (used in `updateChecked`, models/control-color.js line 44). -/
def without (l : List String) (x : String) : List String :=
  l.filter (fun y => y ≠ x)

/-- The attribute state of a `ControlColor` Backbone model:
`options` and `checked` are the two array attributes
(models/control-color.js lines 13-16). -/
structure ControlColor where
  options : List String
  checked : List String
deriving Repr, DecidableEq

/-- `this.set('checked', itemsToCheck, { silent: true })`
(models/control-color.js line 47): the value is stored and, because of the
`silent` flag, no notification is emitted (second component `[]`). -/
def silentSetChecked (m : ControlColor) (v : List String) :
    ControlColor × List (List String) :=
  ({ m with checked := v }, [])

/-- The `updateChecked` handler (models/control-color.js lines 38-49), run
on `change:checked`.  `previous` is `this.previous('checked')`; the incoming
value has already been stored in `m.checked` by the outer `set`.  Returns
the model state after the handler together with the notifications the
handler itself emitted (always none: its only write is silent). -/
def updateChecked (previous : List String) (m : ControlColor) :
    ControlColor × List (List String) :=
  if m.checked.contains "all" then
    silentSetChecked m
      (if previous.contains "all" then without m.checked "all" else ["all"])
  else (m, [])

/-- An external `change:checked` subscriber such as the view's
`listenTo(this.model, 'change:checked', this.render)`
(views/control-color.js line 23): it reads `this.model.get('checked')` at
notification time; we record that observed value. -/
def subscriberNotify (m : ControlColor) : ControlColor × List (List String) :=
  (m, [m.checked])

/-- An external `model.set('checked', newChecked)` call (what the spec calls
`setChecked`).  Backbone fires `change:checked` exactly when `newChecked` is
not deep-equal to the stored value; the handlers then run in registration
order: first the model's own `updateChecked` (registered in `initialize`,
models/control-color.js line 28), then any later external subscriber.
Returns the final model state and the list of checked values observed by
external subscribers during the call. -/
def setChecked (m : ControlColor) (newChecked : List String) :
    ControlColor × List (List String) :=
  if newChecked = m.checked then (m, [])
  else
    let afterHandler := updateChecked m.checked { m with checked := newChecked }
    let afterSub := subscriberNotify afterHandler.1
    (afterSub.1, afterHandler.2 ++ afterSub.2)

/-- A sequence of external `setChecked` calls, applied in order. -/
def runSetChecked (m : ControlColor) (calls : List (List String)) : ControlColor :=
  calls.foldl (fun s c => (setChecked s c).1) m

/-- Result of constructing `new ControlColor(attrs)`, with the array
aliasing of the source made explicit.  `model` is the attribute state of the
new instance; `defaultsOptionsAfter` is the contents of the prototype-shared
`defaults.options` array after the call; `callerOptionsAfter` is the
contents of the caller-supplied options array after the call, when one was
supplied. -/
structure ConstructResult where
  model : ControlColor
  defaultsOptionsAfter : List String
  callerOptionsAfter : Option (List String)
deriving Repr, DecidableEq

/-- `new ControlColor(attrs)` followed by `initialize`
(models/control-color.js lines 24-29).  `defaultsOptions` is the current
contents of the shared `defaults.options` array (initially `[]`, line 14,
but mutable because `attrs.options.push('all')` pushes into it whenever the
caller supplied no `options` key).  The `initialize` handler registration
happens after the attributes are stored, so `checked` is taken verbatim,
with no reconciliation.  The effective options array is the caller's array
when supplied, else the shared defaults array, and `push('all')` mutates
that array object in place. -/
def construct (defaultsOptions : List String)
    (attrsOptions attrsChecked : Option (List String)) : ConstructResult :=
  let pushed := attrsOptions.getD defaultsOptions ++ ["all"]
  { model := { options := pushed, checked := attrsChecked.getD ["all"] }
  , defaultsOptionsAfter :=
      match attrsOptions with
      | some _ => defaultsOptions
      | none => pushed
  , callerOptionsAfter := attrsOptions.map (fun arr => arr ++ ["all"]) }

/-- The reference reconciliation stated by the spec (spec rules 2a, 2b, 3):
written from the spec's words, to be compared against the behaviour of
`setChecked`. -/
def claimReconcile (previous newChecked : List String) : List String :=
  if newChecked.contains "all" then
    if previous.contains "all" then newChecked.filter (fun y => y ≠ "all")
    else ["all"]
  else newChecked

/-- One rendered checkbox control: its `value` attribute and `checked` flag
(views/control-color.js lines 34-38). -/
structure Control where
  value : String
  checked : Bool
deriving Repr, DecidableEq

/-- The body of `render` (views/control-color.js lines 30-43): one
checkbox per entry of `options`, in order, checked exactly when the entry is
contained in the `checked` attribute. -/
def renderControls (m : ControlColor) : List Control :=
  m.options.map (fun option => { value := option, checked := m.checked.contains option })

/-- `render` applied to a rendering target: `this.$el.empty().append(items)`
discards whatever the target held before and leaves exactly the freshly
built controls. -/
def renderInto (m : ControlColor) (_target : List Control) : List Control :=
  renderControls m

/-- The `handleChange` handler (views/control-color.js lines 49-52): pluck
the `value` of every currently checked control, in order, and store that
list via `model.set('checked', ...)`. -/
def handleChange (m : ControlColor) (controls : List Control) :
    ControlColor × List (List String) :=
  setChecked m ((controls.filter (fun c => c.checked)).map (fun c => c.value))

/-- The user unchecking the control whose value is `v`
(as in `find('input[value="red"]').prop('checked', false)` in the tests). -/
def uncheck (v : String) (cs : List Control) : List Control :=
  cs.map (fun c => if c.value = v then { c with checked := false } else c)

/-- Helper: when the argument of an external `setChecked` call is not
deep-equal to the stored checked list (so the `change:checked` event fires),
the stored list afterwards is the `updateChecked` result: if the argument
contains "all" it becomes either the argument without "all" (when "all" was
present before) or exactly `["all"]`; otherwise it is the argument itself. -/
theorem setChecked_checked (m : ControlColor) (newChecked : List String)
    (h : newChecked ≠ m.checked) :
    (setChecked m newChecked).1.checked =
      if newChecked.contains "all" then
        (if m.checked.contains "all" then without newChecked "all" else ["all"])
      else newChecked := by
  by_cases hall : "all" ∈ newChecked <;>
    by_cases hprev : "all" ∈ m.checked <;>
      simp [setChecked, updateChecked, silentSetChecked, subscriberNotify, h, hall, hprev]

/-- Helper: an external `setChecked` call whose argument is deep-equal to the
stored checked list is a Backbone no-op: no change event, no handler, no
notification. -/
theorem setChecked_self (m : ControlColor) : setChecked m m.checked = (m, []) := by
  simp [setChecked]

/-- C1 counterexample: with `checked = ["all"]` the call `setChecked(["all"])`
is a Backbone no-op (deep-equal input), so the stored value stays `["all"]`,
while the reference reconciliation of the claim demands
`newChecked minus "all" = []`. -/
theorem c1_counterexample :
    (setChecked { options := ["all"], checked := ["all"] } ["all"]).1.checked = ["all"]
    ∧ claimReconcile ["all"] ["all"] = []
    ∧ (setChecked { options := ["all"], checked := ["all"] } ["all"]).1.checked
        ≠ claimReconcile ["all"] ["all"] := by
  decide

/-- C1 amended: for every `setChecked(newChecked)` call whose argument is not
deep-equal to the currently stored checked list, the stored checked list
afterwards equals the reference reconciliation of the claim; a deep-equal
argument leaves the stored list unchanged instead. -/
theorem c1_reconciliation (m : ControlColor) (newChecked : List String)
    (h : newChecked ≠ m.checked) :
    (setChecked m newChecked).1.checked = claimReconcile m.checked newChecked := by
  rw [setChecked_checked m newChecked h]
  rfl

/-- C1 witness: the amended theorem applied at `checked = ["all"]`,
`newChecked = ["all", "blue"]`. -/
theorem c1_witness :
    (setChecked { options := ["all"], checked := ["all"] } ["all", "blue"]).1.checked
      = claimReconcile ["all"] ["all", "blue"] :=
  c1_reconciliation { options := ["all"], checked := ["all"] } ["all", "blue"] (by decide)

/-- C2: after any sequence of `setChecked` calls, once a further call's
reconciliation has run (the `change:checked` handler fires exactly when the
argument is not deep-equal to the stored list), the stored checked list
either is exactly `["all"]` or does not contain `"all"` at all. -/
theorem c2_invariant (m : ControlColor) (calls : List (List String))
    (newChecked : List String)
    (h : newChecked ≠ (runSetChecked m calls).checked) :
    (setChecked (runSetChecked m calls) newChecked).1.checked = ["all"]
    ∨ "all" ∉ (setChecked (runSetChecked m calls) newChecked).1.checked := by
  rw [setChecked_checked _ _ h]
  by_cases hall : "all" ∈ newChecked
  · by_cases hprev : "all" ∈ (runSetChecked m calls).checked
    · right
      simp [hall, hprev, without]
    · left
      simp [hall, hprev]
  · right
    simp [hall]

/-- C2 witness: the invariant theorem applied after the one-call sequence
`[["red", "green"]]` with the further call `setChecked(["all", "blue"])`. -/
theorem c2_witness :
    (setChecked (runSetChecked { options := ["all"], checked := ["all"] }
        [["red", "green"]]) ["all", "blue"]).1.checked = ["all"]
    ∨ "all" ∉ (setChecked (runSetChecked { options := ["all"], checked := ["all"] }
        [["red", "green"]]) ["all", "blue"]).1.checked :=
  c2_invariant { options := ["all"], checked := ["all"] } [["red", "green"]]
    ["all", "blue"] (by decide)

/-- C3 counterexample: starting from `checked = ["all"]`, the call
`setChecked(["all", "red", "green"])` lands in the rule-2a branch ("all" was
already present), so the result is `["red", "green"]`, not the `["all"]` the
claim states. -/
theorem c3_counterexample :
    (setChecked { options := ["red", "green", "blue", "all"], checked := ["all"] }
        ["all", "red", "green"]).1.checked = ["red", "green"]
    ∧ (setChecked { options := ["red", "green", "blue", "all"], checked := ["all"] }
        ["all", "red", "green"]).1.checked ≠ ["all"] := by
  decide

/-- C3 amended: starting from `checked = ["all"]`, `setChecked(["all", "red",
"green"])` yields `["red", "green"]` (rule 2a: "all" was present before, so
it is dropped), and the subsequent `setChecked(["all", "blue"])` yields
`["all"]` (rule 2b: a fresh selection of "all" discards the co-selected
option). -/
theorem c3_two_calls :
    (setChecked { options := ["red", "green", "blue", "all"], checked := ["all"] }
        ["all", "red", "green"]).1.checked = ["red", "green"]
    ∧ (setChecked (setChecked { options := ["red", "green", "blue", "all"], checked := ["all"] }
        ["all", "red", "green"]).1 ["all", "blue"]).1.checked = ["all"] := by
  decide

/-- C4: constructing with a caller-supplied options list `L` not containing
"all" yields options `L ++ ["all"]`: every element of `L` is kept, "all"
appears exactly once, and it sits at the very end. -/
theorem c4_options_sentinel (d L : List String) (cOpt : Option (List String))
    (h : "all" ∉ L) :
    (construct d (some L) cOpt).model.options = L ++ ["all"]
    ∧ ((construct d (some L) cOpt).model.options).count "all" = 1
    ∧ ((construct d (some L) cOpt).model.options).getLast? = some "all" := by
  refine ⟨rfl, ?_, ?_⟩
  · simp [construct, List.count_append, List.count_eq_zero.mpr h]
  · simp [construct, List.getLast?_concat]

/-- C4 witness: the construction theorem at `L = ["red", "green", "blue"]`. -/
theorem c4_witness :
    (construct [] (some ["red", "green", "blue"]) none).model.options
      = ["red", "green", "blue"] ++ ["all"]
    ∧ ((construct [] (some ["red", "green", "blue"]) none).model.options).count "all" = 1
    ∧ ((construct [] (some ["red", "green", "blue"]) none).model.options).getLast?
      = some "all" :=
  c4_options_sentinel [] ["red", "green", "blue"] none (by decide)

/-- C5 counterexample: constructing with `checked = ["all", "red"]` stores
that list verbatim, so right after construction the checked list still
contains "all" together with "red": no reconciliation happened at
construction time. -/
theorem c5_counterexample :
    (construct [] none (some ["all", "red"])).model.checked = ["all", "red"]
    ∧ ((construct [] none (some ["all", "red"])).model.checked).contains "all" = true
    ∧ (construct [] none (some ["all", "red"])).model.checked ≠ ["all"] := by
  decide

/-- C5 amended: construction stores the supplied initial checked list exactly
as given, with no reconciliation: the `change:checked` handler is only
registered during `initialize` and is never applied to the construction-time
value. -/
theorem c5_construction_verbatim (d : List String) (oOpt : Option (List String))
    (ck : List String) :
    (construct d oOpt (some ck)).model.checked = ck :=
  rfl

/-- C6: an external `setChecked` call whose argument is not deep-equal to the
stored list delivers exactly one notification to external subscribers, the
observed value is the final stored (reconciled) checked list, and the
internal corrective write of the `updateChecked` handler emits no
notification of its own (it is silent). -/
theorem c6_single_notification (m : ControlColor) (newChecked : List String)
    (h : newChecked ≠ m.checked) :
    (setChecked m newChecked).2 = [(setChecked m newChecked).1.checked]
    ∧ (updateChecked m.checked { m with checked := newChecked }).2 = [] := by
  constructor
  · by_cases hall : "all" ∈ newChecked <;>
      by_cases hprev : "all" ∈ m.checked <;>
        simp [setChecked, updateChecked, silentSetChecked, subscriberNotify, h, hall, hprev]
  · by_cases hall : "all" ∈ newChecked <;>
      simp [updateChecked, silentSetChecked, hall]

/-- C6 witness: the notification theorem at `checked = ["red"]`,
`newChecked = ["all", "blue"]`, where the reconciled value `["all"]` differs
from the pre-reconciliation input. -/
theorem c6_witness :
    (setChecked { options := ["red", "blue", "all"], checked := ["red"] } ["all", "blue"]).2
      = [(setChecked { options := ["red", "blue", "all"], checked := ["red"] }
          ["all", "blue"]).1.checked]
    ∧ (updateChecked ["red"]
        { options := ["red", "blue", "all"], checked := ["all", "blue"] }).2 = [] :=
  c6_single_notification { options := ["red", "blue", "all"], checked := ["red"] }
    ["all", "blue"] (by decide)

/-- C7: rendering leaves the target holding exactly one control per entry of
`options`, in order, carrying the entry as its value and a checked flag equal
to membership in `checked`; rendering twice on an unchanged state leaves the
same number of controls as rendering once. -/
theorem c7_render (m : ControlColor) (t : List Control) :
    (renderInto m t).length = m.options.length
    ∧ (∀ i : Nat, (renderInto m t)[i]? =
        (m.options[i]?).map (fun o => { value := o, checked := m.checked.contains o }))
    ∧ (renderInto m (renderInto m t)).length = (renderInto m t).length := by
  refine ⟨by simp [renderInto, renderControls], fun i => ?_, rfl⟩
  simp [renderInto, renderControls]

/-- C8: `handleChange` stores exactly the values of the currently checked
controls (whenever that collected list does not involve "all", it is stored
as-is); concretely, with options `["red", "green", "blue"]` and checked
`["blue", "red"]`, unchecking the "red" control and firing the change
handler yields checked `["blue"]`, and the re-render shows only "blue"
checked. -/
theorem c8_handle_change (m : ControlColor) (controls : List Control)
    (h : ((controls.filter (fun c => c.checked)).map (fun c => c.value)).contains "all"
      = false) :
    (handleChange m controls).1.checked
      = (controls.filter (fun c => c.checked)).map (fun c => c.value)
    ∧ (handleChange { options := ["red", "green", "blue"], checked := ["blue", "red"] }
        (uncheck "red" (renderControls
          { options := ["red", "green", "blue"], checked := ["blue", "red"] }))).1.checked
      = ["blue"]
    ∧ ((renderControls (handleChange
        { options := ["red", "green", "blue"], checked := ["blue", "red"] }
        (uncheck "red" (renderControls
          { options := ["red", "green", "blue"], checked := ["blue", "red"] }))).1).filter
            (fun c => c.checked)).map (fun c => c.value)
      = ["blue"] := by
  refine ⟨?_, by decide, by decide⟩
  by_cases hv : (controls.filter (fun c => c.checked)).map (fun c => c.value) = m.checked
  · unfold handleChange
    rw [hv, setChecked_self]
  · unfold handleChange
    rw [setChecked_checked m _ hv, h, if_neg (by decide : ¬false = true)]

/-- C8 witness: the `handleChange` theorem applied at the concrete scenario
state (options `["red", "green", "blue"]`, checked `["blue", "red"]`) with
the controls obtained by rendering and then unchecking "red". -/
theorem c8_witness :
    (handleChange { options := ["red", "green", "blue"], checked := ["blue", "red"] }
        (uncheck "red" (renderControls
          { options := ["red", "green", "blue"], checked := ["blue", "red"] }))).1.checked
      = (((uncheck "red" (renderControls
          { options := ["red", "green", "blue"], checked := ["blue", "red"] })).filter
            (fun c => c.checked)).map (fun c => c.value))
    ∧ (handleChange { options := ["red", "green", "blue"], checked := ["blue", "red"] }
        (uncheck "red" (renderControls
          { options := ["red", "green", "blue"], checked := ["blue", "red"] }))).1.checked
      = ["blue"]
    ∧ ((renderControls (handleChange
        { options := ["red", "green", "blue"], checked := ["blue", "red"] }
        (uncheck "red" (renderControls
          { options := ["red", "green", "blue"], checked := ["blue", "red"] }))).1).filter
            (fun c => c.checked)).map (fun c => c.value)
      = ["blue"] :=
  c8_handle_change { options := ["red", "green", "blue"], checked := ["blue", "red"] }
    (uncheck "red" (renderControls
      { options := ["red", "green", "blue"], checked := ["blue", "red"] }))
    (by decide)

/-- C9: the constructor mutates its options input in place: a caller-supplied
options array ends up with "all" pushed onto it, visible through the caller's
own reference; with no options argument the shared `defaults.options` array
itself gains the pushed "all", so a second no-argument construction starts
from the already-mutated defaults and ends with "all" twice in its options. -/
theorem c9_mutation (d arr : List String) (cOpt c2 : Option (List String)) :
    (construct d (some arr) cOpt).callerOptionsAfter = some (arr ++ ["all"])
    ∧ (construct d none c2).defaultsOptionsAfter = d ++ ["all"]
    ∧ (construct (construct [] none none).defaultsOptionsAfter none none).model.options
      = ["all", "all"] :=
  ⟨rfl, rfl, rfl⟩

/-- C10: an external `setChecked` call whose argument is deep-equal (same
elements, same order) to the stored checked list is a complete no-op: the
model state is unchanged and no subscriber notification is delivered. -/
theorem c10_noop (m : ControlColor) : setChecked m m.checked = (m, []) :=
  setChecked_self m
